import Mathlib

/-!
Shallow embedding of `src/index.js` (exercise-tracker HTTP API over two
Postgres tables) and proofs about the claims of its specification.

Conventions of the embedding:
* JavaScript strings are Lean `String`; a missing/`undefined` body or query
  field is `none : Option String`, and JS truthiness of such a field is
  `truthy` below (`undefined` and `""` are falsy, all other strings truthy).
* Calendar dates (the Postgres `DATE` column) are days since the Unix epoch,
  as `Int`; instants (JS `Date` values) are minutes since the epoch, as `Int`.
* The database state is a pair of lists of rows; a `SELECT ... WHERE` is a
  `filter`/`find?`, `ORDER BY` is `mergeSort`, `LIMIT` is `take`; `INSERT`
  appends a row, after the primary-key check the constraint would perform.
* Handlers are pure functions from the request pieces (plus the identifier
  and clock inputs the code reads from the environment) to a result record
  holding the HTTP status, the JSON body as an association list, and the
  database state after the call.
-/

/-- JS truthiness of an optional string field: `undefined` and `""` are
falsy, every other string is truthy (`!username`, `!description`, ...). -/
def truthy : Option String → Bool
  | none => false
  | some s => !s.isEmpty

/-- `s.substr(start, len)` of JavaScript on a string. -/
def jsSubstr (s : String) (start len : Nat) : String :=
  String.mk ((s.toList.drop start).take len)

/-- The hex digit characters used by `Number.prototype.toString(16)`:
`0`-`9` then lowercase `a`-`f`. -/
def hexDigitChar (n : Nat) : Char :=
  if n < 10 then Char.ofNat (48 + n) else Char.ofNat (87 + n)

/-- Whether a character is a lowercase hexadecimal digit. -/
def isLowerHexChar (c : Char) : Bool :=
  (decide (48 ≤ c.toNat) && decide (c.toNat ≤ 57)) ||
  (decide (97 ≤ c.toNat) && decide (c.toNat ≤ 102))

/-- Fuel-driven hex digit expansion; the fuel only bounds the recursion
depth and `natToHex` always supplies enough of it. -/
def natToHexAux : Nat → Nat → List Char
  | 0, _ => []
  | fuel + 1, n =>
    if n < 16 then [hexDigitChar n]
    else natToHexAux fuel (n / 16) ++ [hexDigitChar (n % 16)]

/-- `n.toString(16)` of JavaScript for a natural number: most significant
digit first, no leading zeros, `"0"` for zero, lowercase letters. -/
def natToHex (n : Nat) : List Char :=
  natToHexAux (n + 1) n

/-- Embedding of `generateObjectId` (src/index.js lines 54-58).
`nowSec` is `Math.floor(Date.now() / 1000)`; `mathRandomHex` is the string
`Math.random().toString(16)` (for example `"0.8"` when the random value is
0.5). The code concatenates the hex timestamp with
`mathRandomHex.substr(2, 16)` and truncates to 24 characters; it never
pads. -/
def generateObjectId (nowSec : Nat) (mathRandomHex : String) : String :=
  let timestamp := String.mk (natToHex nowSec)
  let randomValue := jsSubstr mathRandomHex 2 16
  jsSubstr (timestamp ++ randomValue) 0 24

/-! ### Calendar arithmetic

`daysFromCivil`/`civilFromDays` convert between a proleptic Gregorian date
and its day number relative to 1970-01-01 (standard era-based civil
calendar algorithms, matching the ECMAScript day-number arithmetic). -/

/-- Day number of the civil date `y-m-d` relative to 1970-01-01. -/
def daysFromCivil (y : Int) (m d : Nat) : Int :=
  let yAdj : Int := if m ≤ 2 then y - 1 else y
  let era : Int := yAdj.fdiv 400
  let yoe : Nat := (yAdj - era * 400).toNat
  let mp : Nat := if m ≤ 2 then m + 9 else m - 3
  let doy : Nat := (153 * mp + 2) / 5 + d - 1
  let doe : Nat := yoe * 365 + yoe / 4 - yoe / 100 + doy
  era * 146097 + (doe : Int) - 719468

/-- Civil date `(y, m, d)` of a day number relative to 1970-01-01. -/
def civilFromDays (z : Int) : Int × Nat × Nat :=
  let z2 : Int := z + 719468
  let era : Int := z2.fdiv 146097
  let doe : Nat := (z2 - era * 146097).toNat
  let yoe : Nat := (doe - doe / 1460 + doe / 36524 - doe / 146096) / 365
  let y : Int := (yoe : Int) + era * 400
  let doy : Nat := doe - (365 * yoe + yoe / 4 - yoe / 100)
  let mp : Nat := (5 * doy + 2) / 153
  let d : Nat := doy - (153 * mp + 2) / 5 + 1
  let m : Nat := if mp < 10 then mp + 3 else mp - 9
  (if m ≤ 2 then y + 1 else y, m, d)

/-- Day of the week of an epoch day number, `0` = Sunday (1970-01-01 was a
Thursday). -/
def weekdayFromDays (z : Int) : Nat :=
  ((z + 4).emod 7).toNat

/-- Abbreviated weekday names as used by `Date.prototype.toDateString`. -/
def weekdayName (w : Nat) : String :=
  ["Sun", "Mon", "Tue", "Wed", "Thu", "Fri", "Sat"].getD w ""

/-- Abbreviated month names as used by `Date.prototype.toDateString`. -/
def monthName (m : Nat) : String :=
  ["Jan", "Feb", "Mar", "Apr", "May", "Jun",
   "Jul", "Aug", "Sep", "Oct", "Nov", "Dec"].getD (m - 1) ""

/-- Two-digit zero-padded decimal rendering of a day of month. -/
def pad2 (n : Nat) : String :=
  if n < 10 then "0" ++ toString n else toString n

/-- `Date.prototype.toDateString` applied to the local calendar day `z`
(epoch day number): the fixed-locale format `"Www Mmm DD YYYY"`, for
example `"Mon Jan 01 2024"`. -/
def toDateString (z : Int) : String :=
  let c := civilFromDays z
  weekdayName (weekdayFromDays z) ++ " " ++ monthName c.2.1 ++ " " ++
    pad2 c.2.2 ++ " " ++ toString c.1

/-- Numeric value of a list of decimal digit characters. -/
def decDigitsVal (l : List Char) : Nat :=
  l.foldl (fun acc c => 10 * acc + (c.toNat - 48)) 0

/-- Split a character list into the dash-separated fields of a date
string. -/
def splitFields : List Char → List (List Char)
  | [] => [[]]
  | c :: rest =>
    let r := splitFields rest
    if c = '-' then [] :: r
    else
      match r with
      | [] => [[c]]
      | h :: t => (c :: h) :: t

/-- Numeric value of a nonempty all-digit field, `none` otherwise. -/
def digitsToNat? (l : List Char) : Option Nat :=
  if !l.isEmpty && l.all Char.isDigit then some (decDigitsVal l) else none

/-- Parse of a `"YYYY-MM-DD"` date-only string into `(year, month, day)`;
`none` models an input the date-only ECMAScript form does not accept
(which makes `new Date(s)` an Invalid Date). -/
def parseDateYMD (s : String) : Option (Int × Nat × Nat) :=
  match splitFields s.toList with
  | [ys, ms, ds] =>
    match digitsToNat? ys, digitsToNat? ms, digitsToNat? ds with
    | some y, some m, some d =>
      if 1 ≤ m && m ≤ 12 && 1 ≤ d && d ≤ 31 then some ((y : Int), m, d)
      else none
    | _, _, _ => none
  | _ => none

/-- `new Date(s)` for a date-only string `s`: per ECMA-262, date-only forms
are interpreted as midnight UTC of that calendar date. Result in minutes
since the epoch; `none` is an Invalid Date. -/
def jsNewDateUTCMin (s : String) : Option Int :=
  (parseDateYMD s).map (fun c => 1440 * daysFromCivil c.1 c.2.1 c.2.2)

/-- The calendar day a Postgres `DATE` column stores for a JS `Date`
parameter holding instant `instantMin` (minutes since epoch), when the node
process and the database server share the constant UTC offset `tz` in
minutes (local time = UTC + `tz`). node-postgres serialises the `Date` as a
local-time text literal, whose date part Postgres keeps when casting to
`DATE`; reading the column back yields a `Date` at local midnight of that
same day, so `toDateString` then renders exactly this day. -/
def pgStoredDay (instantMin tz : Int) : Int :=
  (instantMin + tz).fdiv 1440

/-! ### Other JavaScript primitives the handlers use -/

/-- `parseInt(s)` of JavaScript (radix 10): skip leading spaces, optional
sign, then the maximal run of decimal digits; `none` models `NaN`. -/
def jsParseInt (s : String) : Option Int :=
  let l := s.toList.dropWhile (fun c => c = ' ')
  let signAndRest : Int × List Char :=
    match l with
    | '-' :: rest => (-1, rest)
    | '+' :: rest => (1, rest)
    | _ => (1, l)
  let digits := signAndRest.2.takeWhile Char.isDigit
  if digits.isEmpty then none
  else some (signAndRest.1 * (decDigitsVal digits : Int))

/-! ### Data model: the two tables (src/index.js lines 20-36) -/

/-- A row of the `users` table: `_id VARCHAR PRIMARY KEY`,
`username VARCHAR UNIQUE NOT NULL`. -/
structure UserRow where
  _id : String
  username : String
deriving DecidableEq, Repr

/-- A row of the `exercises` table: `_id VARCHAR PRIMARY KEY`,
`user_id VARCHAR NOT NULL REFERENCES users(_id)`, `description TEXT`,
`duration INTEGER`, `date DATE` (kept as an epoch day number). -/
structure ExerciseRow where
  _id : String
  user_id : String
  description : String
  duration : Int
  date : Int
deriving DecidableEq, Repr

/-- The persistent state: the contents of the two tables. -/
structure DbState where
  users : List UserRow
  exercises : List ExerciseRow
deriving DecidableEq, Repr

/-- A JSON scalar appearing in a response body. -/
inductive JVal where
  | s (v : String)
  | n (v : Int)
deriving DecidableEq, Repr

/-- A storage operation issued by the add-exercise handler, recorded so
that theorems can state that a branch touches the database or not. -/
inductive DbOp where
  | selectUserById (uid : String)
  | insertExerciseRow (row : ExerciseRow)
deriving DecidableEq, Repr

/-! ### Handler: `POST /api/users` (src/index.js lines 72-111) -/

/-- Result of the create-user handler: HTTP status, JSON body as an
association list in field order, and the database state afterwards. -/
structure PostUsersOut where
  status : Nat
  body : List (String × String)
  db : DbState
deriving DecidableEq, Repr

/-- Embedding of the `POST /api/users` handler. `freshId` is the value
`generateObjectId()` would produce if the insert branch runs. The insert
is modelled together with the `_id` primary-key constraint: a colliding
fresh id makes the `INSERT` fail, which the handler turns into a 500. -/
def postUsers (db : DbState) (freshId : String) (username : Option String) :
    PostUsersOut :=
  if !(truthy username) then
    { status := 400, body := [("error", "Username is required")], db := db }
  else
    let u := username.getD ""
    match db.users.find? (fun r => r.username = u) with
    | some r =>
      { status := 200, body := [("username", r.username), ("_id", r._id)],
        db := db }
    | none =>
      if db.users.any (fun r => r._id = freshId) then
        { status := 500, body := [("error", "Server error")], db := db }
      else
        let row : UserRow := { _id := freshId, username := u }
        { status := 200, body := [("username", row.username), ("_id", row._id)],
          db := { db with users := db.users ++ [row] } }

/-! ### Handler: `GET /api/users` (src/index.js lines 114-122) -/

/-- Embedding of the `GET /api/users` handler body:
`SELECT username, _id FROM users ORDER BY username`, sent as a JSON array
of row objects whose fields are the selected columns in order. -/
def getUsers (db : DbState) : List (List (String × String)) :=
  (db.users.mergeSort (fun a b => decide (a.username ≤ b.username))).map
    (fun r => [("username", r.username), ("_id", r._id)])

/-! ### Handler: `POST /api/users/:_id/exercises` (src/index.js 125-164) -/

/-- Result of the add-exercise handler: HTTP status, JSON body as an
association list in field order, the database state afterwards, and the
trace of storage operations the handler issued. -/
structure AddExerciseOut where
  status : Nat
  body : List (String × JVal)
  db : DbState
  trace : List DbOp
deriving DecidableEq, Repr

/-- Embedding of the `POST /api/users/:_id/exercises` handler.
`tz` is the shared UTC offset (minutes) of the node process and the
database server, `nowMin` the current instant when the handler runs
(`new Date()`), `exerciseId` the value `generateObjectId()` would produce.
The body date, when truthy, is parsed per `new Date(date)`; an Invalid
Date or a `NaN` duration makes the `INSERT` fail at the driver, which the
catch turns into a 500, as does a colliding exercise `_id`. -/
def addExercise (db : DbState) (tz nowMin : Int) (userId : String)
    (description duration date : Option String) (exerciseId : String) :
    AddExerciseOut :=
  if !(truthy description) || !(truthy duration) then
    { status := 400,
      body := [("error", .s "Description and duration are required")],
      db := db, trace := [] }
  else
    let exerciseInstant : Option Int :=
      if truthy date then jsNewDateUTCMin (date.getD "") else some nowMin
    match db.users.find? (fun r => r._id = userId) with
    | none =>
      { status := 404, body := [("error", .s "User not found")],
        db := db, trace := [.selectUserById userId] }
    | some user =>
      match jsParseInt (duration.getD ""), exerciseInstant with
      | some durVal, some instant =>
        if db.exercises.any (fun r => r._id = exerciseId) then
          { status := 500, body := [("error", .s "Server error")],
            db := db, trace := [.selectUserById userId] }
        else
          let row : ExerciseRow :=
            { _id := exerciseId, user_id := userId,
              description := description.getD "",
              duration := durVal, date := pgStoredDay instant tz }
          { status := 200,
            body := [("_id", .s user._id), ("username", .s user.username),
                     ("date", .s (toDateString row.date)),
                     ("duration", .n row.duration),
                     ("description", .s row.description)],
            db := { db with exercises := db.exercises ++ [row] },
            trace := [.selectUserById userId, .insertExerciseRow row] }
      | _, _ =>
        { status := 500, body := [("error", .s "Server error")],
          db := db, trace := [.selectUserById userId] }

/-! ### Handler: `GET /api/users/:_id/logs` (src/index.js lines 167-222) -/

/-- One element of the `log` array of a logs response. -/
structure LogEntry where
  description : String
  duration : Int
  date : String
deriving DecidableEq, Repr

/-- Result of the logs handler: HTTP status, the rows the SQL query
returned, and the rendered `log` array (the success body is
`{_id, username, count: log.length, log}`). -/
structure GetLogsOut where
  status : Nat
  rows : List ExerciseRow
  log : List LogEntry
deriving DecidableEq, Repr

/-- The rows of the logs SQL query:
`SELECT ... WHERE user_id = $1 [AND date >= $2] [AND date <= $3]
ORDER BY date [LIMIT $4]`. `fromDay?`/`toDay?` are the `DATE` values the
truthy query parameters resolve to, `limit?` the parsed `LIMIT` count. -/
def logsQueryRows (db : DbState) (userId : String)
    (fromDay? toDay? : Option Int) (limit? : Option Int) : List ExerciseRow :=
  let matched := db.exercises.filter (fun e =>
    e.user_id = userId &&
    (match fromDay? with | some f => decide (f ≤ e.date) | none => true) &&
    (match toDay? with | some t => decide (e.date ≤ t) | none => true))
  let ordered := matched.mergeSort (fun a b => decide (a.date ≤ b.date))
  match limit? with
  | some k => ordered.take k.toNat
  | none => ordered

/-- Embedding of the `GET /api/users/:_id/logs` handler. A truthy `from`
or `to` parameter is parsed per `new Date(...)` and compared against the
`DATE` column, which under the shared offset `tz` amounts to the day
number `pgStoredDay`; an Invalid Date, a `NaN` limit or a negative limit
makes the query fail, which the catch turns into a 500. -/
def getLogs (db : DbState) (tz : Int) (userId : String)
    (fromQ toQ limitQ : Option String) : GetLogsOut :=
  match db.users.find? (fun r => r._id = userId) with
  | none => { status := 404, rows := [], log := [] }
  | some _ =>
    let fromRes : Option (Option Int) :=
      if truthy fromQ then
        match jsNewDateUTCMin (fromQ.getD "") with
        | some i => some (some (pgStoredDay i tz))
        | none => none
      else some none
    let toRes : Option (Option Int) :=
      if truthy toQ then
        match jsNewDateUTCMin (toQ.getD "") with
        | some i => some (some (pgStoredDay i tz))
        | none => none
      else some none
    let limitRes : Option (Option Int) :=
      if truthy limitQ then
        match jsParseInt (limitQ.getD "") with
        | some k => if k < 0 then none else some (some k)
        | none => none
      else some none
    match fromRes, toRes, limitRes with
    | some fromDay?, some toDay?, some limit? =>
      let rows := logsQueryRows db userId fromDay? toDay? limit?
      { status := 200, rows := rows,
        log := rows.map (fun e =>
          { description := e.description, duration := e.duration,
            date := toDateString e.date }) }
    | _, _, _ => { status := 500, rows := [], log := [] }

/-! ### Helper lemmas -/

/-- A missing query or body field is falsy. -/
theorem truthy_none : truthy none = false := rfl

/-- Each digit character emitted by `hexDigitChar` on a value below 16 is a
lowercase hex character. -/
theorem hexDigitChar_lowerHex {n : Nat} (h : n < 16) :
    isLowerHexChar (hexDigitChar n) = true := by
  interval_cases n <;> decide

/-- Every character of the fuel-driven hex expansion is a lowercase hex
character. -/
theorem natToHexAux_lowerHex (fuel : Nat) :
    ∀ (n : Nat), ∀ c ∈ natToHexAux fuel n, isLowerHexChar c = true := by
  induction fuel with
  | zero => intro n c hc; simp [natToHexAux] at hc
  | succ fuel ih =>
    intro n c hc
    by_cases h : n < 16
    · simp [natToHexAux, h] at hc
      subst hc
      exact hexDigitChar_lowerHex h
    · simp [natToHexAux, h] at hc
      rcases hc with hc | hc
      · exact ih _ c hc
      · subst hc
        exact hexDigitChar_lowerHex (Nat.mod_lt _ (by norm_num))

/-- Every character of the JS hex rendering of a natural number is a
lowercase hex character. -/
theorem natToHex_lowerHex (n : Nat) :
    ∀ c ∈ natToHex n, isLowerHexChar c = true :=
  natToHexAux_lowerHex (n + 1) n

/-- In a list of user rows with pairwise distinct usernames, a successful
`find?` by username means exactly one row carries that username. -/
theorem filter_username_length_one {l : List UserRow} {u : String} {r : UserRow}
    (hnd : (l.map UserRow.username).Nodup)
    (hf : l.find? (fun x => x.username = u) = some r) :
    (l.filter (fun x => x.username = u)).length = 1 := by
  induction l with
  | nil => simp [List.find?] at hf
  | cons a t ih =>
    simp only [List.map_cons, List.nodup_cons] at hnd
    by_cases ha : a.username = u
    · have ht : t.filter (fun x => x.username = u) = [] := by
        rw [List.filter_eq_nil_iff]
        intro x hx
        simp only [decide_eq_true_eq]
        intro hxu
        exact hnd.1 (by rw [ha, ← hxu]; exact List.mem_map_of_mem _ hx)
      simp [List.filter_cons, ha, ht]
    · have hf' : t.find? (fun x => decide (x.username = u)) = some r := by
        simpa [List.find?_cons, ha] using hf
      have := ih hnd.2 hf'
      simpa [List.filter_cons, ha] using this

/-! ### C1 -/

/-- C1 is false as stated: the generator concatenates the hex timestamp
with the random fragment and truncates to 24 characters but never pads, so
a short fragment yields fewer than 24 characters. At timestamp 1700000000
(a genuine Unix second) and randomness value 0.5 (whose JS hex rendering
is the string "0.8", leaving the fragment "8"), the generated identifier
has 9 characters, not 24. -/
theorem generateObjectId_not_24_cex :
    generateObjectId 1700000000 "0.8" = "6553f1008" ∧
    (generateObjectId 1700000000 "0.8").length ≠ 24 := by
  decide

/-- C1 (amended): every generated identifier consists only of lowercase
hexadecimal characters and has at most 24 of them — exactly the length of
the hex timestamp plus the random fragment, capped at 24; the code never
pads short results up to 24. -/
theorem generateObjectId_hex_le24 (nowSec : Nat) (mathRandomHex : String)
    (hfrag : ∀ c ∈ (mathRandomHex.toList.drop 2).take 16,
      isLowerHexChar c = true) :
    (generateObjectId nowSec mathRandomHex).length =
      min ((natToHex nowSec).length +
        ((mathRandomHex.toList.drop 2).take 16).length) 24 ∧
    (generateObjectId nowSec mathRandomHex).length ≤ 24 ∧
    ∀ c ∈ (generateObjectId nowSec mathRandomHex).toList,
      isLowerHexChar c = true := by
  have hrep : (generateObjectId nowSec mathRandomHex).toList =
      (natToHex nowSec ++ (mathRandomHex.toList.drop 2).take 16).take 24 := rfl
  have hlen : (generateObjectId nowSec mathRandomHex).length =
      ((natToHex nowSec ++ (mathRandomHex.toList.drop 2).take 16).take 24).length := by
    rw [← hrep]; rfl
  refine ⟨?_, ?_, ?_⟩
  · rw [hlen, List.length_take, List.length_append]
    omega
  · rw [hlen, List.length_take, List.length_append]
    omega
  · intro c hc
    rw [hrep] at hc
    rcases List.mem_append.mp (List.mem_of_mem_take hc) with hc | hc
    · exact natToHex_lowerHex nowSec c hc
    · exact hfrag c hc

/-- Witness for C1 (amended) at timestamp 1700000000 and randomness
rendering "0.8". -/
theorem generateObjectId_hex_le24_witness :
    (∀ c ∈ (("0.8" : String).toList.drop 2).take 16, isLowerHexChar c = true) ∧
    ((generateObjectId 1700000000 "0.8").length =
      min ((natToHex 1700000000).length +
        ((("0.8" : String).toList.drop 2).take 16).length) 24 ∧
     (generateObjectId 1700000000 "0.8").length ≤ 24 ∧
     ∀ c ∈ (generateObjectId 1700000000 "0.8").toList,
       isLowerHexChar c = true) :=
  ⟨by decide, generateObjectId_hex_le24 1700000000 "0.8" (by decide)⟩

/-! ### C3 -/

/-- C3: when description and duration are present (truthy) but the path id
matches no user row, the add-exercise handler answers 404, the database is
unchanged (in particular no exercise row is inserted), and the only
storage operation issued is the user lookup. -/
theorem addExercise_unknownUser_404 (db : DbState) (tz nowMin : Int)
    (userId : String) (description duration date : Option String)
    (exerciseId : String)
    (hd : truthy description = true) (hdur : truthy duration = true)
    (hu : db.users.find? (fun r => r._id = userId) = none) :
    (addExercise db tz nowMin userId description duration date exerciseId).status
      = 404 ∧
    (addExercise db tz nowMin userId description duration date exerciseId).db.exercises
      = db.exercises ∧
    (addExercise db tz nowMin userId description duration date exerciseId).db
      = db ∧
    (addExercise db tz nowMin userId description duration date exerciseId).trace
      = [DbOp.selectUserById userId] := by
  simp [addExercise, hd, hdur, hu]

/-- Witness for C3: a database with no users at all. -/
theorem addExercise_unknownUser_404_witness :
    (truthy (some "run") = true ∧ truthy (some "30") = true ∧
      (DbState.mk [] []).users.find? (fun r => r._id = "u1") = none) ∧
    ((addExercise ⟨[], []⟩ 0 0 "u1" (some "run") (some "30") none "e1").status
        = 404 ∧
     (addExercise ⟨[], []⟩ 0 0 "u1" (some "run") (some "30") none "e1").db.exercises
        = ([] : List ExerciseRow) ∧
     (addExercise ⟨[], []⟩ 0 0 "u1" (some "run") (some "30") none "e1").db
        = ⟨[], []⟩ ∧
     (addExercise ⟨[], []⟩ 0 0 "u1" (some "run") (some "30") none "e1").trace
        = [DbOp.selectUserById "u1"]) :=
  ⟨⟨by decide, by decide, by decide⟩,
    addExercise_unknownUser_404 ⟨[], []⟩ 0 0 "u1" (some "run") (some "30") none
      "e1" (by decide) (by decide) (by decide)⟩

/-! ### C9 -/

/-- C9: a missing (or empty) description or duration makes the
add-exercise handler answer 400 before anything touches storage: the
database is unchanged and the trace of storage operations is empty, for
every path id, existing or not — the 404 branch is unreachable here. -/
theorem addExercise_400_before_lookup (db : DbState) (tz nowMin : Int)
    (userId : String) (description duration date : Option String)
    (exerciseId : String)
    (h : truthy description = false ∨ truthy duration = false) :
    (addExercise db tz nowMin userId description duration date exerciseId).status
      = 400 ∧
    (addExercise db tz nowMin userId description duration date exerciseId).db
      = db ∧
    (addExercise db tz nowMin userId description duration date exerciseId).trace
      = [] := by
  rcases h with h | h <;> simp [addExercise, h]

/-- Witness for C9: missing duration together with a path id that matches
no user still produces 400 with no storage operation. -/
theorem addExercise_400_before_lookup_witness :
    (truthy (some "run") = false ∨ truthy (none : Option String) = false) ∧
    ((addExercise ⟨[], []⟩ 0 0 "ghost" (some "run") none none "e1").status = 400 ∧
     (addExercise ⟨[], []⟩ 0 0 "ghost" (some "run") none none "e1").db = ⟨[], []⟩ ∧
     (addExercise ⟨[], []⟩ 0 0 "ghost" (some "run") none none "e1").trace = []) :=
  ⟨Or.inr (by decide),
    addExercise_400_before_lookup ⟨[], []⟩ 0 0 "ghost" (some "run") none none
      "e1" (Or.inr (by decide))⟩

/-! ### C2 -/

/-- C2: when the users table has pairwise distinct usernames (its UNIQUE
constraint) and a first create-user call succeeds, a second call with the
same username answers 200 with the identical body — in particular the same
id — changes nothing, and afterwards exactly one row carries that
username. -/
theorem postUsers_idempotent (db : DbState) (id1 id2 u : String)
    (hnd : (db.users.map UserRow.username).Nodup)
    (h1 : (postUsers db id1 (some u)).status = 200) :
    (postUsers (postUsers db id1 (some u)).db id2 (some u)).status = 200 ∧
    (postUsers (postUsers db id1 (some u)).db id2 (some u)).body =
      (postUsers db id1 (some u)).body ∧
    (postUsers (postUsers db id1 (some u)).db id2 (some u)).db =
      (postUsers db id1 (some u)).db ∧
    ((postUsers (postUsers db id1 (some u)).db id2 (some u)).db.users.filter
        (fun r => r.username = u)).length = 1 := by
  cases htr : truthy (some u) with
  | false => simp [postUsers, htr] at h1
  | true =>
    cases hfind : db.users.find? (fun r => r.username = u) with
    | some r =>
      refine ⟨?_, ?_, ?_, ?_⟩ <;>
        simp [postUsers, htr, hfind, filter_username_length_one hnd hfind]
    | none =>
      cases hany : db.users.any (fun r => r._id = id1) with
      | true => simp [postUsers, htr, hfind, hany] at h1
      | false =>
        have hrow : (db.users ++ [UserRow.mk id1 u]).find?
            (fun r => r.username = u) = some (UserRow.mk id1 u) := by
          rw [List.find?_append, hfind]
          simp [List.find?]
        have hnil : db.users.filter (fun r => r.username = u) = [] := by
          rw [List.filter_eq_nil_iff]
          exact List.find?_eq_none.mp hfind
        refine ⟨?_, ?_, ?_, ?_⟩ <;>
          simp [postUsers, htr, hfind, hany, hrow, List.filter_append, hnil]

/-- Witness for C2 on the empty database with username "alice". -/
theorem postUsers_idempotent_witness :
    ((List.map UserRow.username (DbState.mk [] []).users).Nodup ∧
      (postUsers ⟨[], []⟩ "a1" (some "alice")).status = 200) ∧
    ((postUsers (postUsers ⟨[], []⟩ "a1" (some "alice")).db "a2" (some "alice")).status = 200 ∧
     (postUsers (postUsers ⟨[], []⟩ "a1" (some "alice")).db "a2" (some "alice")).body =
       (postUsers ⟨[], []⟩ "a1" (some "alice")).body ∧
     (postUsers (postUsers ⟨[], []⟩ "a1" (some "alice")).db "a2" (some "alice")).db =
       (postUsers ⟨[], []⟩ "a1" (some "alice")).db ∧
     ((postUsers (postUsers ⟨[], []⟩ "a1" (some "alice")).db "a2" (some "alice")).db.users.filter
         (fun r => r.username = "alice")).length = 1) :=
  ⟨⟨by decide, by decide⟩,
    postUsers_idempotent ⟨[], []⟩ "a1" "a2" "alice" (by decide) (by decide)⟩

/-! ### C10 -/

/-- C10: a successful add-exercise response carries in its `_id` field the
user id from the request path, while the stored exercise row carries the
freshly generated exercise id; whenever the two ids differ, the response
`_id` is not the exercise id. -/
theorem addExercise_id_is_user_id (db : DbState) (tz nowMin : Int)
    (userId : String) (description duration date : Option String)
    (exerciseId : String)
    (h200 : (addExercise db tz nowMin userId description duration date exerciseId).status = 200) :
    (addExercise db tz nowMin userId description duration date exerciseId).body.lookup "_id"
      = some (JVal.s userId) ∧
    (∃ row : ExerciseRow, row._id = exerciseId ∧
      (addExercise db tz nowMin userId description duration date exerciseId).db.exercises
        = db.exercises ++ [row]) ∧
    (exerciseId ≠ userId →
      (addExercise db tz nowMin userId description duration date exerciseId).body.lookup "_id"
        ≠ some (JVal.s exerciseId)) := by
  cases hval : (!(truthy description) || !(truthy duration)) with
  | true => simp [addExercise, hval] at h200
  | false =>
    cases hfind : db.users.find? (fun r => r._id = userId) with
    | none => simp [addExercise, hval, hfind] at h200
    | some user =>
      cases hpi : jsParseInt (duration.getD "") with
      | none => simp [addExercise, hval, hfind, hpi] at h200
      | some durVal =>
        cases hinst : (if truthy date then jsNewDateUTCMin (date.getD "")
            else some nowMin) with
        | none => simp [addExercise, hval, hfind, hpi, hinst] at h200
        | some instant =>
          cases hfresh : db.exercises.any (fun r => r._id = exerciseId) with
          | true => simp [addExercise, hval, hfind, hpi, hinst, hfresh] at h200
          | false =>
            have huid : user._id = userId := by
              simpa using List.find?_some hfind
            have hlook : (addExercise db tz nowMin userId description duration
                date exerciseId).body.lookup "_id" = some (JVal.s userId) := by
              simp [addExercise, hval, hfind, hpi, hinst, hfresh, List.lookup, huid]
            refine ⟨hlook, ⟨⟨exerciseId, userId, description.getD "", durVal,
              pgStoredDay instant tz⟩, rfl, ?_⟩, ?_⟩
            · simp [addExercise, hval, hfind, hpi, hinst, hfresh]
            · intro hne hcontra
              rw [hlook] at hcontra
              injection hcontra with hv
              injection hv with hs
              exact hne hs.symm

/-! ### C8 -/

/-- C8 is false as stated: a successful create-user response has no field
named `id`. On the empty database with username "alice" the response body
consists of the two fields `username` and `_id` — the identifier field is
spelled `_id`, not `id`. -/
theorem postUsers_no_id_field_cex :
    (postUsers ⟨[], []⟩ "65524aaa0000000000000000" (some "alice")).status = 200 ∧
    (postUsers ⟨[], []⟩ "65524aaa0000000000000000" (some "alice")).body.map Prod.fst
      = ["username", "_id"] ∧
    (postUsers ⟨[], []⟩ "65524aaa0000000000000000" (some "alice")).body.lookup "id"
      = none := by
  decide

/-- C8 (amended): a successful create-user response is an object with
exactly the two fields `username` and `_id` (in that order), where `_id`
is the identifier under which that username is stored in the users table;
each element of the `GET /api/users` list has exactly those two fields as
well. -/
theorem postUsers_field_names (db : DbState) (freshId u : String)
    (h200 : (postUsers db freshId (some u)).status = 200) :
    (∃ r : UserRow,
      (postUsers db freshId (some u)).db.users.find? (fun x => x.username = u)
          = some r ∧
      (postUsers db freshId (some u)).body
          = [("username", r.username), ("_id", r._id)]) ∧
    (postUsers db freshId (some u)).body.map Prod.fst = ["username", "_id"] ∧
    ∀ fields ∈ getUsers db, fields.map Prod.fst = ["username", "_id"] := by
  have hget : ∀ fields ∈ getUsers db, fields.map Prod.fst = ["username", "_id"] := by
    intro fields hf
    simp only [getUsers, List.mem_map] at hf
    obtain ⟨r, _, rfl⟩ := hf
    rfl
  cases htr : truthy (some u) with
  | false => simp [postUsers, htr] at h200
  | true =>
    cases hfind : db.users.find? (fun r => r.username = u) with
    | some r =>
      refine ⟨⟨r, ?_, ?_⟩, ?_, hget⟩ <;> simp [postUsers, htr, hfind]
    | none =>
      cases hany : db.users.any (fun r => r._id = freshId) with
      | true => simp [postUsers, htr, hfind, hany] at h200
      | false =>
        have hrow : (db.users ++ [UserRow.mk freshId u]).find?
            (fun x => x.username = u) = some (UserRow.mk freshId u) := by
          rw [List.find?_append, hfind]
          simp [List.find?]
        refine ⟨⟨UserRow.mk freshId u, ?_, ?_⟩, ?_, hget⟩ <;>
          simp [postUsers, htr, hfind, hany, hrow]

/-- Witness for C8 (amended) on the empty database. -/
theorem postUsers_field_names_witness :
    ((postUsers ⟨[], []⟩ "a1" (some "alice")).status = 200) ∧
    ((∃ r : UserRow,
        (postUsers ⟨[], []⟩ "a1" (some "alice")).db.users.find?
            (fun x => x.username = "alice") = some r ∧
        (postUsers ⟨[], []⟩ "a1" (some "alice")).body
            = [("username", r.username), ("_id", r._id)]) ∧
     (postUsers ⟨[], []⟩ "a1" (some "alice")).body.map Prod.fst
        = ["username", "_id"] ∧
     ∀ fields ∈ getUsers ⟨[], []⟩, fields.map Prod.fst = ["username", "_id"]) :=
  ⟨by decide, postUsers_field_names ⟨[], []⟩ "a1" "alice" (by decide)⟩

/-! ### Sorting helpers for the logs query -/

/-- The merge sort the logs query performs yields a list whose dates are
pairwise ascending. -/
theorem pairwise_date_mergeSort (l : List ExerciseRow) :
    List.Pairwise (fun a b : ExerciseRow => a.date ≤ b.date)
      (l.mergeSort (fun a b => decide (a.date ≤ b.date))) := by
  have h := @List.sorted_mergeSort ExerciseRow
    (fun a b : ExerciseRow => decide (a.date ≤ b.date))
    (fun a b c hab hbc => by
      simp only [decide_eq_true_eq] at *
      exact le_trans hab hbc)
    (fun a b => by
      simp only [Bool.or_eq_true, decide_eq_true_eq]
      exact Int.le_total a.date b.date)
    l
  exact h.imp (by intro a b hab; simpa using hab)

/-- Every result of the logs query has pairwise ascending dates, whatever
the range and limit arguments are. -/
theorem logsQueryRows_pairwise (db : DbState) (userId : String)
    (fromDay? toDay? limit? : Option Int) :
    List.Pairwise (fun a b : ExerciseRow => a.date ≤ b.date)
      (logsQueryRows db userId fromDay? toDay? limit?) := by
  cases limit? with
  | none => exact pairwise_date_mergeSort _
  | some k =>
    exact List.Pairwise.sublist (List.take_sublist _ _)
      (pairwise_date_mergeSort _)

/-! ### C4 -/

/-- C4: for an existing user, the rows of the logs response are sorted in
ascending order of their date, whatever the stored exercises, their
insertion order, and the range/limit parameters are. -/
theorem getLogs_sorted (db : DbState) (tz : Int) (userId : String)
    (fromQ toQ limitQ : Option String) (u : UserRow)
    (hu : db.users.find? (fun r => r._id = userId) = some u) :
    List.Pairwise (fun a b : ExerciseRow => a.date ≤ b.date)
      (getLogs db tz userId fromQ toQ limitQ).rows := by
  simp only [getLogs, hu]
  split
  · exact logsQueryRows_pairwise _ _ _ _ _
  · exact List.Pairwise.nil

/-- Witness for C4: two exercises inserted latest-date first come back in
ascending date order. -/
theorem getLogs_sorted_witness :
    ((DbState.mk [⟨"u1", "alice"⟩]
        [⟨"e1", "u1", "run", 30, 19737⟩, ⟨"e2", "u1", "walk", 10, 19723⟩]).users.find?
      (fun r => r._id = "u1") = some ⟨"u1", "alice"⟩) ∧
    List.Pairwise (fun a b : ExerciseRow => a.date ≤ b.date)
      (getLogs ⟨[⟨"u1", "alice"⟩],
        [⟨"e1", "u1", "run", 30, 19737⟩, ⟨"e2", "u1", "walk", 10, 19723⟩]⟩
        0 "u1" none none none).rows :=
  ⟨by decide,
    getLogs_sorted ⟨[⟨"u1", "alice"⟩],
      [⟨"e1", "u1", "run", 30, 19737⟩, ⟨"e2", "u1", "walk", 10, 19723⟩]⟩
      0 "u1" none none none ⟨"u1", "alice"⟩ (by decide)⟩

/-- Witness for C10: adding an exercise for the stored user `u1`. -/
theorem addExercise_id_is_user_id_witness :
    ((addExercise ⟨[⟨"u1", "alice"⟩], []⟩ 0 0 "u1" (some "run") (some "30")
        none "e1").status = 200) ∧
    ((addExercise ⟨[⟨"u1", "alice"⟩], []⟩ 0 0 "u1" (some "run") (some "30")
        none "e1").body.lookup "_id" = some (JVal.s "u1") ∧
     (∃ row : ExerciseRow, row._id = "e1" ∧
       (addExercise ⟨[⟨"u1", "alice"⟩], []⟩ 0 0 "u1" (some "run") (some "30")
           none "e1").db.exercises = ([] : List ExerciseRow) ++ [row]) ∧
     ("e1" ≠ "u1" →
       (addExercise ⟨[⟨"u1", "alice"⟩], []⟩ 0 0 "u1" (some "run") (some "30")
           none "e1").body.lookup "_id" ≠ some (JVal.s "e1"))) :=
  ⟨by decide,
    addExercise_id_is_user_id ⟨[⟨"u1", "alice"⟩], []⟩ 0 0 "u1" (some "run")
      (some "30") none "e1" (by decide)⟩

/-! ### C5 -/

/-- C5: for an existing user, when both range parameters are supplied
(truthy) and parse to dates, the logs response succeeds and its rows are
exactly the stored exercises of that user whose date lies between the two
resolved bounds, both inclusive — as a permutation, and pointwise as a
membership equivalence. -/
theorem getLogs_range_inclusive (db : DbState) (tz : Int) (userId : String)
    (fromQ toQ : Option String) (u : UserRow) (fi ti : Int)
    (hu : db.users.find? (fun r => r._id = userId) = some u)
    (hf : truthy fromQ = true) (hfi : jsNewDateUTCMin (fromQ.getD "") = some fi)
    (ht : truthy toQ = true) (hti : jsNewDateUTCMin (toQ.getD "") = some ti) :
    (getLogs db tz userId fromQ toQ none).status = 200 ∧
    (getLogs db tz userId fromQ toQ none).rows.Perm
      (db.exercises.filter (fun e => decide (e.user_id = userId ∧
        pgStoredDay fi tz ≤ e.date ∧ e.date ≤ pgStoredDay ti tz))) ∧
    ∀ e : ExerciseRow, e ∈ (getLogs db tz userId fromQ toQ none).rows ↔
      (e ∈ db.exercises ∧ e.user_id = userId ∧
        pgStoredDay fi tz ≤ e.date ∧ e.date ≤ pgStoredDay ti tz) := by
  have hout : getLogs db tz userId fromQ toQ none =
      { status := 200,
        rows := logsQueryRows db userId (some (pgStoredDay fi tz))
          (some (pgStoredDay ti tz)) none,
        log := (logsQueryRows db userId (some (pgStoredDay fi tz))
          (some (pgStoredDay ti tz)) none).map (fun e =>
            { description := e.description, duration := e.duration,
              date := toDateString e.date }) } := by
    simp [getLogs, hu, hf, hfi, ht, hti, truthy_none]
  have hfilter : db.exercises.filter (fun e =>
        e.user_id = userId && (decide (pgStoredDay fi tz ≤ e.date)) &&
          (decide (e.date ≤ pgStoredDay ti tz)))
      = db.exercises.filter (fun e => decide (e.user_id = userId ∧
          pgStoredDay fi tz ≤ e.date ∧ e.date ≤ pgStoredDay ti tz)) := by
    refine List.filter_congr ?_
    intro x _
    by_cases h1 : x.user_id = userId <;>
      by_cases h2 : pgStoredDay fi tz ≤ x.date <;>
      by_cases h3 : x.date ≤ pgStoredDay ti tz <;>
      simp [h1, h2, h3]
  have hperm : (logsQueryRows db userId (some (pgStoredDay fi tz))
      (some (pgStoredDay ti tz)) none).Perm
      (db.exercises.filter (fun e => decide (e.user_id = userId ∧
        pgStoredDay fi tz ≤ e.date ∧ e.date ≤ pgStoredDay ti tz))) := by
    have hql : logsQueryRows db userId (some (pgStoredDay fi tz))
        (some (pgStoredDay ti tz)) none
        = (db.exercises.filter (fun e =>
            e.user_id = userId && (decide (pgStoredDay fi tz ≤ e.date)) &&
              (decide (e.date ≤ pgStoredDay ti tz)))).mergeSort
          (fun a b : ExerciseRow => decide (a.date ≤ b.date)) := rfl
    rw [hql, ← hfilter]
    exact List.mergeSort_perm _ _
  refine ⟨by rw [hout], by rw [hout]; exact hperm, ?_⟩
  intro e
  rw [hout]
  constructor
  · intro he
    have hmem := hperm.mem_iff.mp he
    rw [List.mem_filter] at hmem
    exact ⟨hmem.1, by simpa using hmem.2⟩
  · intro he
    apply hperm.mem_iff.mpr
    rw [List.mem_filter]
    exact ⟨he.1, by simp [he.2.1, he.2.2.1, he.2.2.2]⟩

/-- Witness for C5: the specification example — exercises on 2024-01-01,
2024-01-15 and 2024-02-01, queried with from=2024-01-10 and to=2024-01-31
(epoch days 19723, 19737, 19754; bound instants in minutes). -/
theorem getLogs_range_inclusive_witness :
    ((DbState.mk [⟨"u1", "alice"⟩]
        [⟨"e1", "u1", "a", 1, 19723⟩, ⟨"e2", "u1", "b", 2, 19737⟩,
         ⟨"e3", "u1", "c", 3, 19754⟩]).users.find? (fun r => r._id = "u1")
        = some ⟨"u1", "alice"⟩ ∧
      truthy (some "2024-01-10") = true ∧
      jsNewDateUTCMin ((some "2024-01-10").getD "") = some 28414080 ∧
      truthy (some "2024-01-31") = true ∧
      jsNewDateUTCMin ((some "2024-01-31").getD "") = some 28444320) ∧
    ((getLogs ⟨[⟨"u1", "alice"⟩],
        [⟨"e1", "u1", "a", 1, 19723⟩, ⟨"e2", "u1", "b", 2, 19737⟩,
         ⟨"e3", "u1", "c", 3, 19754⟩]⟩ 0 "u1" (some "2024-01-10")
        (some "2024-01-31") none).status = 200 ∧
     (getLogs ⟨[⟨"u1", "alice"⟩],
        [⟨"e1", "u1", "a", 1, 19723⟩, ⟨"e2", "u1", "b", 2, 19737⟩,
         ⟨"e3", "u1", "c", 3, 19754⟩]⟩ 0 "u1" (some "2024-01-10")
        (some "2024-01-31") none).rows.Perm
       ((DbState.mk [⟨"u1", "alice"⟩]
          [⟨"e1", "u1", "a", 1, 19723⟩, ⟨"e2", "u1", "b", 2, 19737⟩,
           ⟨"e3", "u1", "c", 3, 19754⟩]).exercises.filter
         (fun e => decide (e.user_id = "u1" ∧
           pgStoredDay 28414080 0 ≤ e.date ∧ e.date ≤ pgStoredDay 28444320 0))) ∧
     ∀ e : ExerciseRow, e ∈ (getLogs ⟨[⟨"u1", "alice"⟩],
        [⟨"e1", "u1", "a", 1, 19723⟩, ⟨"e2", "u1", "b", 2, 19737⟩,
         ⟨"e3", "u1", "c", 3, 19754⟩]⟩ 0 "u1" (some "2024-01-10")
        (some "2024-01-31") none).rows ↔
       (e ∈ (DbState.mk [⟨"u1", "alice"⟩]
          [⟨"e1", "u1", "a", 1, 19723⟩, ⟨"e2", "u1", "b", 2, 19737⟩,
           ⟨"e3", "u1", "c", 3, 19754⟩]).exercises ∧ e.user_id = "u1" ∧
         pgStoredDay 28414080 0 ≤ e.date ∧ e.date ≤ pgStoredDay 28444320 0)) :=
  ⟨⟨by decide, by decide, by decide, by decide, by decide⟩,
    getLogs_range_inclusive ⟨[⟨"u1", "alice"⟩],
      [⟨"e1", "u1", "a", 1, 19723⟩, ⟨"e2", "u1", "b", 2, 19737⟩,
       ⟨"e3", "u1", "c", 3, 19754⟩]⟩ 0 "u1" (some "2024-01-10")
      (some "2024-01-31") ⟨"u1", "alice"⟩ 28414080 28444320
      (by decide) (by decide) (by decide) (by decide) (by decide)⟩

/-! ### C6 -/

/-- C6: for an existing user with more stored exercises than the supplied
positive limit k, the logs response returns exactly k rows, sorted by
date, and they are k earliest ones: the remaining matched exercises all
have dates at least as large. Without a limit parameter every matched
exercise is returned. -/
theorem getLogs_limit_cap (db : DbState) (tz : Int) (userId : String)
    (u : UserRow) (ls : String) (k : Int)
    (hu : db.users.find? (fun r => r._id = userId) = some u)
    (hl : truthy (some ls) = true) (hk : jsParseInt ls = some k)
    (hkpos : 0 < k)
    (hklt : k.toNat <
      (db.exercises.filter (fun e => decide (e.user_id = userId))).length) :
    (getLogs db tz userId none none (some ls)).status = 200 ∧
    (getLogs db tz userId none none (some ls)).rows.length = k.toNat ∧
    List.Pairwise (fun a b : ExerciseRow => a.date ≤ b.date)
      (getLogs db tz userId none none (some ls)).rows ∧
    (∃ rest : List ExerciseRow,
      ((getLogs db tz userId none none (some ls)).rows ++ rest).Perm
        (db.exercises.filter (fun e => decide (e.user_id = userId))) ∧
      ∀ a ∈ (getLogs db tz userId none none (some ls)).rows, ∀ b ∈ rest,
        a.date ≤ b.date) ∧
    (getLogs db tz userId none none none).status = 200 ∧
    (getLogs db tz userId none none none).rows.Perm
      (db.exercises.filter (fun e => decide (e.user_id = userId))) ∧
    (getLogs db tz userId none none none).rows.length =
      (db.exercises.filter (fun e => decide (e.user_id = userId))).length := by
  have hfilter2 : db.exercises.filter (fun e =>
        e.user_id = userId && true && true)
      = db.exercises.filter (fun e => decide (e.user_id = userId)) := by
    refine List.filter_congr ?_
    intro x _
    simp
  have hqlL : logsQueryRows db userId none none (some k)
      = ((db.exercises.filter (fun e => decide (e.user_id = userId))).mergeSort
          (fun a b : ExerciseRow => decide (a.date ≤ b.date))).take k.toNat := by
    have h0 : logsQueryRows db userId none none (some k)
        = ((db.exercises.filter (fun e =>
            e.user_id = userId && true && true)).mergeSort
          (fun a b : ExerciseRow => decide (a.date ≤ b.date))).take k.toNat := rfl
    rw [h0, hfilter2]
  have hqlN : logsQueryRows db userId none none none
      = (db.exercises.filter (fun e => decide (e.user_id = userId))).mergeSort
          (fun a b : ExerciseRow => decide (a.date ≤ b.date)) := by
    have h0 : logsQueryRows db userId none none none
        = (db.exercises.filter (fun e =>
            e.user_id = userId && true && true)).mergeSort
          (fun a b : ExerciseRow => decide (a.date ≤ b.date)) := rfl
    rw [h0, hfilter2]
  have houtL : getLogs db tz userId none none (some ls)
      = { status := 200, rows := logsQueryRows db userId none none (some k),
          log := (logsQueryRows db userId none none (some k)).map (fun e =>
            { description := e.description, duration := e.duration,
              date := toDateString e.date }) } := by
    have hneg : ¬ k < 0 := by omega
    simp [getLogs, hu, hl, hk, hneg, truthy_none]
  have houtN : getLogs db tz userId none none none
      = { status := 200, rows := logsQueryRows db userId none none none,
          log := (logsQueryRows db userId none none none).map (fun e =>
            { description := e.description, duration := e.duration,
              date := toDateString e.date }) } := by
    simp [getLogs, hu, truthy_none]
  have hrowsL : (getLogs db tz userId none none (some ls)).rows
      = logsQueryRows db userId none none (some k) := by rw [houtL]
  have hrowsN : (getLogs db tz userId none none none).rows
      = logsQueryRows db userId none none none := by rw [houtN]
  refine ⟨by rw [houtL], ?_, ?_, ?_, by rw [houtN], ?_, ?_⟩
  · rw [hrowsL, hqlL, List.length_take, List.length_mergeSort]
    exact Nat.min_eq_left (le_of_lt hklt)
  · rw [hrowsL]
    exact logsQueryRows_pairwise _ _ _ _ _
  · refine ⟨((db.exercises.filter
        (fun e => decide (e.user_id = userId))).mergeSort
        (fun a b : ExerciseRow => decide (a.date ≤ b.date))).drop k.toNat,
      ?_, ?_⟩
    · rw [hrowsL, hqlL, List.take_append_drop]
      exact List.mergeSort_perm _ _
    · have hpw := pairwise_date_mergeSort
        (db.exercises.filter (fun e => decide (e.user_id = userId)))
      rw [← List.take_append_drop k.toNat
        ((db.exercises.filter (fun e => decide (e.user_id = userId))).mergeSort
          (fun a b : ExerciseRow => decide (a.date ≤ b.date)))] at hpw
      have hcross := (List.pairwise_append.mp hpw).2.2
      intro a ha b hb
      refine hcross a ?_ b hb
      rw [hrowsL, hqlL] at ha
      exact ha
  · rw [hrowsN, hqlN]
    exact List.mergeSort_perm _ _
  · rw [hrowsN, hqlN, List.length_mergeSort]

/-- Witness for C6: five exercises, limit "2". -/
theorem getLogs_limit_cap_witness :
    ((DbState.mk [⟨"u1", "alice"⟩]
        [⟨"e1", "u1", "a", 1, 19740⟩, ⟨"e2", "u1", "b", 2, 19723⟩,
         ⟨"e3", "u1", "c", 3, 19737⟩, ⟨"e4", "u1", "d", 4, 19730⟩,
         ⟨"e5", "u1", "e", 5, 19725⟩]).users.find?
        (fun r => r._id = "u1") = some ⟨"u1", "alice"⟩ ∧
      truthy (some "2") = true ∧ jsParseInt "2" = some 2 ∧ (0 : Int) < 2 ∧
      (2 : Int).toNat < ((DbState.mk [⟨"u1", "alice"⟩]
        [⟨"e1", "u1", "a", 1, 19740⟩, ⟨"e2", "u1", "b", 2, 19723⟩,
         ⟨"e3", "u1", "c", 3, 19737⟩, ⟨"e4", "u1", "d", 4, 19730⟩,
         ⟨"e5", "u1", "e", 5, 19725⟩]).exercises.filter
          (fun e => decide (e.user_id = "u1"))).length) ∧
    ((getLogs ⟨[⟨"u1", "alice"⟩],
        [⟨"e1", "u1", "a", 1, 19740⟩, ⟨"e2", "u1", "b", 2, 19723⟩,
         ⟨"e3", "u1", "c", 3, 19737⟩, ⟨"e4", "u1", "d", 4, 19730⟩,
         ⟨"e5", "u1", "e", 5, 19725⟩]⟩ 0 "u1" none none (some "2")).status
        = 200 ∧
     (getLogs ⟨[⟨"u1", "alice"⟩],
        [⟨"e1", "u1", "a", 1, 19740⟩, ⟨"e2", "u1", "b", 2, 19723⟩,
         ⟨"e3", "u1", "c", 3, 19737⟩, ⟨"e4", "u1", "d", 4, 19730⟩,
         ⟨"e5", "u1", "e", 5, 19725⟩]⟩ 0 "u1" none none (some "2")).rows.length
        = (2 : Int).toNat ∧
     List.Pairwise (fun a b : ExerciseRow => a.date ≤ b.date)
       (getLogs ⟨[⟨"u1", "alice"⟩],
        [⟨"e1", "u1", "a", 1, 19740⟩, ⟨"e2", "u1", "b", 2, 19723⟩,
         ⟨"e3", "u1", "c", 3, 19737⟩, ⟨"e4", "u1", "d", 4, 19730⟩,
         ⟨"e5", "u1", "e", 5, 19725⟩]⟩ 0 "u1" none none (some "2")).rows ∧
     (∃ rest : List ExerciseRow,
       ((getLogs ⟨[⟨"u1", "alice"⟩],
        [⟨"e1", "u1", "a", 1, 19740⟩, ⟨"e2", "u1", "b", 2, 19723⟩,
         ⟨"e3", "u1", "c", 3, 19737⟩, ⟨"e4", "u1", "d", 4, 19730⟩,
         ⟨"e5", "u1", "e", 5, 19725⟩]⟩ 0 "u1" none none (some "2")).rows
          ++ rest).Perm
         ((DbState.mk [⟨"u1", "alice"⟩]
        [⟨"e1", "u1", "a", 1, 19740⟩, ⟨"e2", "u1", "b", 2, 19723⟩,
         ⟨"e3", "u1", "c", 3, 19737⟩, ⟨"e4", "u1", "d", 4, 19730⟩,
         ⟨"e5", "u1", "e", 5, 19725⟩]).exercises.filter
           (fun e => decide (e.user_id = "u1"))) ∧
       ∀ a ∈ (getLogs ⟨[⟨"u1", "alice"⟩],
        [⟨"e1", "u1", "a", 1, 19740⟩, ⟨"e2", "u1", "b", 2, 19723⟩,
         ⟨"e3", "u1", "c", 3, 19737⟩, ⟨"e4", "u1", "d", 4, 19730⟩,
         ⟨"e5", "u1", "e", 5, 19725⟩]⟩ 0 "u1" none none (some "2")).rows,
         ∀ b ∈ rest, a.date ≤ b.date) ∧
     (getLogs ⟨[⟨"u1", "alice"⟩],
        [⟨"e1", "u1", "a", 1, 19740⟩, ⟨"e2", "u1", "b", 2, 19723⟩,
         ⟨"e3", "u1", "c", 3, 19737⟩, ⟨"e4", "u1", "d", 4, 19730⟩,
         ⟨"e5", "u1", "e", 5, 19725⟩]⟩ 0 "u1" none none none).status = 200 ∧
     (getLogs ⟨[⟨"u1", "alice"⟩],
        [⟨"e1", "u1", "a", 1, 19740⟩, ⟨"e2", "u1", "b", 2, 19723⟩,
         ⟨"e3", "u1", "c", 3, 19737⟩, ⟨"e4", "u1", "d", 4, 19730⟩,
         ⟨"e5", "u1", "e", 5, 19725⟩]⟩ 0 "u1" none none none).rows.Perm
       ((DbState.mk [⟨"u1", "alice"⟩]
        [⟨"e1", "u1", "a", 1, 19740⟩, ⟨"e2", "u1", "b", 2, 19723⟩,
         ⟨"e3", "u1", "c", 3, 19737⟩, ⟨"e4", "u1", "d", 4, 19730⟩,
         ⟨"e5", "u1", "e", 5, 19725⟩]).exercises.filter
         (fun e => decide (e.user_id = "u1"))) ∧
     (getLogs ⟨[⟨"u1", "alice"⟩],
        [⟨"e1", "u1", "a", 1, 19740⟩, ⟨"e2", "u1", "b", 2, 19723⟩,
         ⟨"e3", "u1", "c", 3, 19737⟩, ⟨"e4", "u1", "d", 4, 19730⟩,
         ⟨"e5", "u1", "e", 5, 19725⟩]⟩ 0 "u1" none none none).rows.length
        = ((DbState.mk [⟨"u1", "alice"⟩]
        [⟨"e1", "u1", "a", 1, 19740⟩, ⟨"e2", "u1", "b", 2, 19723⟩,
         ⟨"e3", "u1", "c", 3, 19737⟩, ⟨"e4", "u1", "d", 4, 19730⟩,
         ⟨"e5", "u1", "e", 5, 19725⟩]).exercises.filter
          (fun e => decide (e.user_id = "u1"))).length) :=
  ⟨⟨by decide, by decide, by decide, by decide, by decide⟩,
    getLogs_limit_cap ⟨[⟨"u1", "alice"⟩],
      [⟨"e1", "u1", "a", 1, 19740⟩, ⟨"e2", "u1", "b", 2, 19723⟩,
       ⟨"e3", "u1", "c", 3, 19737⟩, ⟨"e4", "u1", "d", 4, 19730⟩,
       ⟨"e5", "u1", "e", 5, 19725⟩]⟩ 0 "u1" ⟨"u1", "alice"⟩ "2" 2
      (by decide) (by decide) (by decide) (by decide) (by decide)⟩

/-! ### C7 -/

/-- C7 is false as stated: the date string is not independent of the
server timezone. Adding an exercise dated "2024-01-01" on a server at
UTC-5 (offset -300 minutes, a common production timezone) succeeds but
renders the date field as "Sun Dec 31 2023": the date-only body string is
parsed as midnight UTC, which at UTC-5 falls on the previous local
calendar day, and that previous day is what the `DATE` column stores and
`toDateString` renders. -/
theorem addExercise_date_west_cex :
    (addExercise ⟨[⟨"u1", "alice"⟩], []⟩ (-300) 0 "u1" (some "run")
      (some "30") (some "2024-01-01") "e1").status = 200 ∧
    (addExercise ⟨[⟨"u1", "alice"⟩], []⟩ (-300) 0 "u1" (some "run")
      (some "30") (some "2024-01-01") "e1").body.lookup "date"
      = some (JVal.s "Sun Dec 31 2023") ∧
    JVal.s "Sun Dec 31 2023" ≠ JVal.s "Mon Jan 01 2024" := by
  decide

/-- C7 (amended): success responses render dates in the fixed
`toDateString` format; for the body date "2024-01-01" the rendered field
is exactly "Mon Jan 01 2024" whenever the shared server timezone offset
is at or east of UTC (0 ≤ tz < 24h). For strictly west-of-UTC offsets the
previous calendar day is rendered instead. -/
theorem addExercise_date_newyear (db : DbState) (tz nowMin : Int)
    (userId : String) (u : UserRow) (description duration : Option String)
    (exerciseId : String) (k : Int)
    (hu : db.users.find? (fun r => r._id = userId) = some u)
    (hd : truthy description = true) (hdur : truthy duration = true)
    (hk : jsParseInt (duration.getD "") = some k)
    (hfresh : db.exercises.any (fun r => r._id = exerciseId) = false)
    (htz0 : 0 ≤ tz) (htz1 : tz < 1440) :
    (addExercise db tz nowMin userId description duration
      (some "2024-01-01") exerciseId).status = 200 ∧
    (addExercise db tz nowMin userId description duration
      (some "2024-01-01") exerciseId).body.lookup "date"
      = some (JVal.s "Mon Jan 01 2024") := by
  have hparse : jsNewDateUTCMin "2024-01-01" = some 28401120 := by decide
  have hday : pgStoredDay 28401120 tz = 19723 := by
    unfold pgStoredDay
    rw [Int.fdiv_eq_ediv _ (by omega : (0 : Int) ≤ 1440)]
    omega
  have hds : toDateString 19723 = "Mon Jan 01 2024" := by decide
  constructor <;>
    simp [addExercise, hd, hdur, hu, hk, hfresh, hparse, hday, hds,
      List.lookup, (by decide : truthy (some "2024-01-01") = true)]

/-- Witness for C7 (amended) at offset 0 (UTC). -/
theorem addExercise_date_newyear_witness :
    (((DbState.mk [⟨"u1", "alice"⟩] []).users.find? (fun r => r._id = "u1")
        = some ⟨"u1", "alice"⟩) ∧
      truthy (some "run") = true ∧ truthy (some "30") = true ∧
      jsParseInt ((some "30").getD "") = some 30 ∧
      (DbState.mk [⟨"u1", "alice"⟩] []).exercises.any
        (fun r => r._id = "e1") = false ∧
      (0 : Int) ≤ 0 ∧ (0 : Int) < 1440) ∧
    ((addExercise ⟨[⟨"u1", "alice"⟩], []⟩ 0 0 "u1" (some "run") (some "30")
        (some "2024-01-01") "e1").status = 200 ∧
     (addExercise ⟨[⟨"u1", "alice"⟩], []⟩ 0 0 "u1" (some "run") (some "30")
        (some "2024-01-01") "e1").body.lookup "date"
        = some (JVal.s "Mon Jan 01 2024")) :=
  ⟨⟨by decide, by decide, by decide, by decide, by decide, by decide,
      by decide⟩,
    addExercise_date_newyear ⟨[⟨"u1", "alice"⟩], []⟩ 0 0 "u1"
      ⟨"u1", "alice"⟩ (some "run") (some "30") "e1" 30 (by decide)
      (by decide) (by decide) (by decide) (by decide) (by decide)
      (by decide)⟩
